import Mathlib

/-!
Shallow embedding of the Box scanner strategy (src/box_strategy.py):
cursor state machine, paginated folder walk (full and incremental modes),
retry/backoff executor, and metadata normalization.  Strings are modelled
with Lean `String`; the character-level helpers below mirror the CPython
semantics of `str.split`, `str.lower` and `str.join` used by the source.
-/

namespace BoxScan

/-- Mirrors CPython `str.split(sep)` for a one-character separator on the
character list of the string: empty segments are kept, and a string with no
separator yields a single segment. -/
def splitChar (c : Char) : List Char → List (List Char)
  | [] => [[]]
  | x :: xs =>
    let r := splitChar c xs
    if x = c then [] :: r
    else
      match r with
      | h :: t => (x :: h) :: t
      | [] => [[x]]

/-- Mirrors CPython `str.lower` on the ASCII range, as used for file
extensions in `_get_mime_type_from_name`. -/
def lowerString (s : String) : String := String.mk (s.data.map Char.toLower)

/-- Mirrors CPython `sep.join(parts)`. -/
def joinWith (sep : String) : List String → String
  | [] => ""
  | [x] => x
  | x :: y :: ys => x ++ sep ++ joinWith sep (y :: ys)

/-- Association-list lookup mirroring Python `dict.get(key)` on the
extension table of `_get_mime_type_from_name`. -/
def lookupExt : List (String × String) → String → Option String
  | [], _ => none
  | (k, v) :: rest, e => if k = e then some v else lookupExt rest e

/-- The fixed extension-to-MIME table of `_get_mime_type_from_name`. -/
def extensionToMime : List (String × String) :=
  [("pdf", "application/pdf"),
   ("doc", "application/msword"),
   ("docx", "application/vnd.openxmlformats-officedocument.wordprocessingml.document"),
   ("xls", "application/vnd.ms-excel"),
   ("xlsx", "application/vnd.openxmlformats-officedocument.spreadsheetml.sheet"),
   ("ppt", "application/vnd.ms-powerpoint"),
   ("pptx", "application/vnd.openxmlformats-officedocument.presentationml.presentation"),
   ("txt", "text/plain"),
   ("csv", "text/csv"),
   ("jpg", "image/jpeg"),
   ("jpeg", "image/jpeg"),
   ("png", "image/png"),
   ("gif", "image/gif"),
   ("html", "text/html"),
   ("htm", "text/html"),
   ("json", "application/json"),
   ("xml", "application/xml"),
   ("zip", "application/zip")]

/-- Embedding of `BoxStrategy._get_mime_type_from_name`.  A missing Python
filename (`None`) is represented by `""`, which takes the same `not filename`
branch in the source. -/
def getMimeTypeFromName (filename : String) : String :=
  if filename = "" then "application/octet-stream"
  else
    let nameParts := splitChar '.' filename.data
    if nameParts.length > 1 then
      let ext := lowerString (String.mk (nameParts.getLastD []))
      (lookupExt extensionToMime ext).getD ("application/" ++ ext)
    else "application/octet-stream"

/-- One entry of a Box `path_collection`: optional `id` and `name` fields. -/
structure PathEntry where
  id : Option String
  name : Option String
deriving DecidableEq

/-- The folder-name accumulation loop of `_build_folder_path`: skip the
synthetic root entry (`id == "0" and name == "All Files"`), keep truthy
names. -/
def entryNames : List PathEntry → List String
  | [] => []
  | e :: rest =>
    if e.id = some "0" ∧ e.name = some "All Files" then entryNames rest
    else
      match e.name with
      | some n => if n = "" then entryNames rest else n :: entryNames rest
      | none => entryNames rest

/-- Embedding of `BoxStrategy._build_folder_path`.  `none` stands for a
missing or falsy `path_collection` dict; the inner `Option` list is the
`entries` value (missing entries collapse to `none`, an empty list is kept). -/
def buildFolderPath (pathCollection : Option (List PathEntry)) : String :=
  match pathCollection with
  | none => "/"
  | some entries =>
    if entries.isEmpty then "/"
    else
      let folderNames := entryNames entries
      if folderNames.isEmpty then "/"
      else "/" ++ joinWith "/" folderNames

/-- The `parent` field of a raw Box item: absent, JSON `null` (on which the
source's `item.get("parent", {}).get(...)` raises), or a dict with an
optional `id`. -/
inductive ParentField where
  | absent
  | null
  | dict (id : Option String)
deriving DecidableEq

/-- A raw item of the search response's `entries` list, with the fields the
source reads.  `sharedLink := none` stands for an absent or falsy
`shared_link`; `some u` for a dict with optional `url` field `u`. -/
structure BoxItem where
  id : Option String
  name : Option String
  modifiedAt : Option String
  createdAt : Option String
  size : Nat
  sharedLink : Option (Option String)
  parent : ParentField
  pathCollection : Option (List PathEntry)
deriving DecidableEq

/-- The normalized `FileMetadata` record built per item. -/
structure FileMetadata where
  id : Option String
  name : Option String
  source : String
  lastModified : Option String
  createdTime : Option String
  size : Nat
  mimeType : String
  webViewLink : String
  parentFolderId : String
  folderPath : String
deriving DecidableEq

/-- `item.get("shared_link", {}).get("url", "") if item.get("shared_link") else ""`. -/
def webViewLinkOf (sl : Option (Option String)) : String :=
  match sl with
  | some u => u.getD ""
  | none => ""

/-- `item.get("parent", {}).get("id", folder_id)`; `none` marks the
`AttributeError` raised when `parent` is JSON `null`. -/
def parentIdOf (folderId : String) : ParentField → Option String
  | .absent => some folderId
  | .null => none
  | .dict pid => some (pid.getD folderId)

/-- Per-item normalization of `_scan_folder` (full mode); `none` is the
swallowed per-item exception. -/
def normalizeItemFull (folderId : String) (item : BoxItem) : Option FileMetadata :=
  match parentIdOf folderId item.parent with
  | none => none
  | some pfid =>
    some { id := item.id, name := item.name, source := "box",
           lastModified := item.modifiedAt, createdTime := item.createdAt,
           size := item.size,
           mimeType := getMimeTypeFromName (item.name.getD ""),
           webViewLink := webViewLinkOf item.sharedLink,
           parentFolderId := pfid,
           folderPath := buildFolderPath item.pathCollection }

/-- Per-item normalization of `_scan_folder_incremental`, with the
`unknown-{files_count}` defaults for `id` and `name`. -/
def normalizeItemInc (folderId : String) (count : Nat) (item : BoxItem) :
    Option FileMetadata :=
  match parentIdOf folderId item.parent with
  | none => none
  | some pfid =>
    some { id := some (item.id.getD ("unknown-" ++ toString count)),
           name := some (item.name.getD ("unknown-" ++ toString count)),
           source := "box",
           lastModified := item.modifiedAt, createdTime := item.createdAt,
           size := item.size,
           mimeType := getMimeTypeFromName (item.name.getD ""),
           webViewLink := webViewLinkOf item.sharedLink,
           parentFolderId := pfid,
           folderPath := buildFolderPath item.pathCollection }

/-- The item loop of `_scan_folder`: stop with `has_more=True` once
`files_count >= max_files`, count only successfully normalized items,
swallow per-item failures.  Returns (file list, break flag). -/
def processFull (folderId : String) (maxFiles : Nat) :
    List BoxItem → Nat → List FileMetadata × Bool
  | [], _ => ([], false)
  | item :: rest, count =>
    if count ≥ maxFiles then ([], true)
    else
      match normalizeItemFull folderId item with
      | some fm =>
        let pr := processFull folderId maxFiles rest (count + 1)
        (fm :: pr.1, pr.2)
      | none => processFull folderId maxFiles rest count

/-- The item loop of `_scan_folder_incremental`; additionally counts the
per-item failures added to `api_errors_count`.  Returns
(file list, break flag, error count). -/
def processInc (folderId : String) (maxFiles : Nat) :
    List BoxItem → Nat → List FileMetadata × Bool × Nat
  | [], _ => ([], false, 0)
  | item :: rest, count =>
    if count ≥ maxFiles then ([], true, 0)
    else
      match normalizeItemInc folderId count item with
      | some fm =>
        let pr := processInc folderId maxFiles rest (count + 1)
        (fm :: pr.1, pr.2.1, pr.2.2)
      | none =>
        let pr := processInc folderId maxFiles rest count
        (pr.1, pr.2.1, pr.2.2 + 1)

/-- The JSON body of one search-page response: optional `entries` list and
optional `total_count`. -/
structure SearchResponse where
  entries : Option (List BoxItem)
  totalCount : Option Nat
deriving DecidableEq

/-- How a folder-walk request can fail: the wrapped API call raised, or the
full-mode `offset + len(items) < total_count` comparison hit `None`
(Python `TypeError`). -/
inductive FolderErr where
  | walkRaise
  | typeError
deriving DecidableEq

def MAX_BATCH_SIZE : Nat := 300

/-- Embedding of `BoxStrategy._scan_folder` (full mode).  `walk` is the
outcome of the wrapped API request (`.error` = the request raised after the
retry executor gave up; `.ok none` = falsy response).  The final check is
`if not has_more and offset + len(items) < total_count`: when the
batch-size break already set `has_more`, the short-circuit skips the
comparison, so a missing `total_count` raises (`TypeError`) only when the
break did not fire.  Returns the walk result together with the deltas
applied to `api_calls_count` and `api_errors_count`. -/
def scanFolderFull (folderId : String) (offset maxFiles : Nat)
    (walk : Except Unit (Option SearchResponse)) :
    Except FolderErr (List FileMetadata × Bool) × Nat × Nat :=
  match walk with
  | .error _ => (.error .walkRaise, 0, 1)
  | .ok none => (.ok ([], false), 1, 0)
  | .ok (some r) =>
    match r.entries with
    | none => (.ok ([], false), 1, 0)
    | some [] => (.ok ([], false), 1, 0)
    | some (item :: rest) =>
      let items := item :: rest
      let pr := processFull folderId maxFiles items 0
      if pr.2 then (.ok (pr.1, true), 1, 0)
      else
        match r.totalCount with
        | none => (.error .typeError, 1, 1)
        | some tc => (.ok (pr.1, decide (offset + items.length < tc)), 1, 0)

/-- Embedding of `BoxStrategy._scan_folder_incremental`.  The final
`has_more` assignment overwrites any break flag with
`offset + len(file_metadata_list) < total_count`, where `total_count`
defaults to `len(items)`. -/
def scanFolderInc (folderId : String) (offset maxFiles : Nat)
    (walk : Except Unit (Option SearchResponse)) :
    Except FolderErr (List FileMetadata × Bool) × Nat × Nat :=
  match walk with
  | .error _ => (.error .walkRaise, 0, 0)
  | .ok none => (.ok ([], false), 1, 0)
  | .ok (some r) =>
    match r.entries with
    | none => (.ok ([], false), 1, 0)
    | some [] => (.ok ([], false), 1, 0)
    | some (item :: rest) =>
      let items := item :: rest
      let pr := processInc folderId maxFiles items 0
      let tc := r.totalCount.getD items.length
      (.ok (pr.1, decide (offset + pr.1.length < tc)), 1, pr.2.2)

/-- The per-batch scan statistics dictionary.  Timestamps are abstract
clock values (`time.time()` readings). -/
structure ScanStats where
  filesCount : Nat
  lastScanBatchAt : Option Nat
  scanStartedAt : Option Nat
  scanCompletedAt : Option Nat
  apiCallsMade : Nat
  apiErrorsEncountered : Nat
deriving DecidableEq

/-- The `ScanResult` envelope returned by one batch. -/
structure ScanResult where
  files : List FileMetadata
  isCompleted : Bool
  stats : ScanStats
  updatedCredentials : Option String
  error : Option String
deriving DecidableEq

/-- Embedding of `BoxStrategy.create_error_result`. -/
def createErrorResult (errorMsg : String) (startedAt now apiCalls apiErrors : Nat) :
    ScanResult :=
  { files := [], isCompleted := false,
    stats := { filesCount := 0, lastScanBatchAt := some now,
               scanStartedAt := some startedAt, scanCompletedAt := none,
               apiCallsMade := apiCalls, apiErrorsEncountered := apiErrors },
    updatedCredentials := none, error := some errorMsg }

/-- A batch outcome: the returned `ScanResult` together with the offsets
written by `_save_scan_state` (in call order), modelling the durable
cursor writes. -/
structure BatchOutcome where
  result : ScanResult
  savedOffsets : List Nat
deriving DecidableEq

/-- Embedding of `BoxStrategy._full_scan`: restore the offset from the
cursor, walk one page, advance or reset the offset, save the cursor, and
assemble the result; a walk failure is caught, the cursor saved as-is, and
an error result returned. -/
def fullScan (folderId : String) (cursor : Option Nat)
    (walk : Except Unit (Option SearchResponse))
    (startedAt now apiCalls0 apiErrors0 : Nat) : BatchOutcome :=
  let offset0 := cursor.getD 0
  let sf := scanFolderFull folderId offset0 MAX_BATCH_SIZE walk
  let apiCalls := apiCalls0 + sf.2.1
  let apiErrors := apiErrors0 + sf.2.2
  match sf.1 with
  | .error _ =>
    { result := createErrorResult "Error in full scan of Box" startedAt now apiCalls apiErrors,
      savedOffsets := [offset0] }
  | .ok (files, hasMore) =>
    let newOffset := if hasMore then offset0 + files.length else 0
    { result := { files := files, isCompleted := !hasMore,
                  stats := { filesCount := files.length, lastScanBatchAt := some now,
                             scanStartedAt := some startedAt, scanCompletedAt := some now,
                             apiCallsMade := apiCalls, apiErrorsEncountered := apiErrors },
                  updatedCredentials := none, error := none },
      savedOffsets := [newOffset] }

/-- Embedding of `BoxStrategy._incremental_scan` (the timestamp filter only
changes the outbound query, which is abstracted into `walk`). -/
def incrementalScan (folderId : String) (cursor : Option Nat)
    (walk : Except Unit (Option SearchResponse))
    (startedAt now apiCalls0 apiErrors0 : Nat) : BatchOutcome :=
  let offset0 := cursor.getD 0
  let sf := scanFolderInc folderId offset0 MAX_BATCH_SIZE walk
  let apiCalls := apiCalls0 + sf.2.1
  let apiErrors := apiErrors0 + sf.2.2
  match sf.1 with
  | .error _ =>
    { result := createErrorResult "Error in incremental scan of Box" startedAt now apiCalls apiErrors,
      savedOffsets := [offset0] }
  | .ok (files, hasMore) =>
    let newOffset := if hasMore then offset0 + files.length else 0
    { result := { files := files, isCompleted := !hasMore,
                  stats := { filesCount := files.length, lastScanBatchAt := some now,
                             scanStartedAt := some startedAt, scanCompletedAt := some now,
                             apiCallsMade := apiCalls, apiErrorsEncountered := apiErrors },
                  updatedCredentials := none, error := none },
      savedOffsets := [newOffset] }

/-- Embedding of `BoxStrategy.scan`.  `auth` is the `_authenticate` outcome:
`none` = falsy auth result, `some (clientOk, creds)` = a dict whose
`service` is truthy iff `clientOk`, with optional refreshed credentials.
Every branch returns a `BatchOutcome`: no exception escapes. -/
def scan (auth : Option (Bool × Option String)) (scanType folderId : String)
    (cursor : Option Nat) (walk : Except Unit (Option SearchResponse))
    (startedAt now : Nat) : BatchOutcome :=
  match auth with
  | none =>
    { result := createErrorResult "Failed to authenticate with Box" startedAt now 0 0,
      savedOffsets := [] }
  | some (clientOk, creds) =>
    if clientOk = false then
      { result := createErrorResult "Failed to initialize Box client" startedAt now 0 0,
        savedOffsets := [] }
    else
      let out :=
        if scanType = "incremental" then
          incrementalScan folderId cursor walk startedAt now 0 0
        else
          fullScan folderId cursor walk startedAt now 0 0
      match creds with
      | some c => { out with result := { out.result with updatedCredentials := some c } }
      | none => out

def MAX_RETRIES : Nat := 3

/-- `status_code == 429 or 500 <= status_code < 600`. -/
def isTransientStatus (s : Nat) : Bool := s == 429 || (decide (500 ≤ s) && decide (s < 600))

/-- One invocation outcome of the wrapped request function:
a successful response, a `BoxAPIException` with a status code, another
`BoxException`, or an unexpected exception. -/
inductive ReqOutcome (α : Type) where
  | success (resp : α)
  | apiError (status : Nat)
  | boxError
  | otherError
deriving DecidableEq

/-- The error raised out of `_execute_with_retry`. -/
inductive BoxErr where
  | api (status : Nat)
  | box
  | other
deriving DecidableEq

/-- One iteration of the `_execute_with_retry` loop at index `retry`:
`some` = the loop returns or raises here, `none` = it proceeds to the next
iteration. -/
def retryIter {α : Type} (f : Nat → ReqOutcome α) (retry : Nat) :
    Option (Except BoxErr α) :=
  match f retry with
  | .success r => some (.ok r)
  | .apiError status =>
    if isTransientStatus status then
      if retry = MAX_RETRIES then some (.error (.api status)) else none
    else if status = 404 then some (.error (.api status))
    else if status = 403 then some (.error (.api status))
    else some (.error (.api status))
  | .boxError => if retry = MAX_RETRIES then some (.error .box) else none
  | .otherError => if retry = MAX_RETRIES then some (.error .other) else none

/-- The `for retry in range(MAX_RETRIES + 1)` loop of
`_execute_with_retry`, threading the list of backoff sleeps
(`RETRY_DELAY * 2 ** (retry - 1)` before every iteration with `retry > 0`).
Falling off the end of the loop is Python's implicit `return None`. -/
def execRetryFrom {α : Type} (baseDelay : Nat) (f : Nat → ReqOutcome α) :
    Nat → Nat → List Nat → Except BoxErr (Option α) × List Nat
  | 0, _, delays => (.ok none, delays)
  | fuel + 1, retry, delays =>
    let delays2 := if 0 < retry then delays ++ [baseDelay * 2 ^ (retry - 1)] else delays
    match retryIter f retry with
    | some (.ok r) => (.ok (some r), delays2)
    | some (.error e) => (.error e, delays2)
    | none => execRetryFrom baseDelay f fuel (retry + 1) delays2

/-- Embedding of `BoxStrategy._execute_with_retry`.  `f i` is the outcome
of the `i`-th invocation of the request function.  `baseDelay` models the
`RETRY_DELAY` constant (inherited from the base strategy class outside this
file's source). -/
def executeWithRetry {α : Type} (baseDelay : Nat) (f : Nat → ReqOutcome α) :
    Except BoxErr (Option α) × List Nat :=
  execRetryFrom baseDelay f (MAX_RETRIES + 1) 0 []

deriving instance DecidableEq for Except

/-- A well-formed raw item used as concrete input in witnesses. -/
def itemGood : BoxItem :=
  { id := some "1", name := some "a.txt", modifiedAt := none, createdAt := none,
    size := 0, sharedLink := none, parent := .absent, pathCollection := none }

/-- A raw item whose `parent` field is JSON `null`, so its per-item
normalization raises and is swallowed. -/
def itemBad : BoxItem := { itemGood with id := some "2", parent := .null }

/-- The normalized record produced from `itemGood` under root folder `"0"`. -/
def fmGood : FileMetadata :=
  { id := some "1", name := some "a.txt", source := "box", lastModified := none,
    createdTime := none, size := 0, mimeType := "text/plain", webViewLink := "",
    parentFolderId := "0", folderPath := "/" }

/-- A request that fails with 429 twice, then succeeds. -/
def reqTwice429 : Nat → ReqOutcome Nat := fun i => if i < 2 then .apiError 429 else .success 7

/-- A request that always fails with 429. -/
def reqAlways429 : Nat → ReqOutcome Nat := fun _ => .apiError 429

/-- A request that always fails with a non-transient API status. -/
def reqTeapot : Nat → ReqOutcome Nat := fun _ => .apiError 418

/-- A request that always fails with a non-API provider error. -/
def reqBoxFail : Nat → ReqOutcome Nat := fun _ => .boxError

/-- A request that always fails with an unexpected error. -/
def reqUnexpected : Nat → ReqOutcome Nat := fun _ => .otherError

theorem processFull_break_false (fid : String) (mf : Nat) :
    ∀ (items : List BoxItem) (count : Nat), count + items.length ≤ mf →
    (processFull fid mf items count).2 = false := by
  intro items
  induction items with
  | nil => intro count h; rfl
  | cons item rest ih =>
    intro count h
    have hlt : ¬ count ≥ mf := by
      simp only [List.length_cons] at h
      omega
    simp only [processFull]
    rw [if_neg hlt]
    cases hn : normalizeItemFull fid item with
    | some fm =>
      simp only [hn]
      exact ih (count + 1) (by simp only [List.length_cons] at h; omega)
    | none =>
      simp only [hn]
      exact ih count (by simp only [List.length_cons] at h; omega)

theorem entryNames_eq_filterMap :
    ∀ (entries : List PathEntry),
    (∀ e ∈ entries, e.name ≠ none ∧ e.name ≠ some "" ∧
        ¬(e.id = some "0" ∧ e.name = some "All Files")) →
    entryNames entries = entries.filterMap PathEntry.name := by
  intro entries
  induction entries with
  | nil => intro _; rfl
  | cons e rest ih =>
    intro h
    obtain ⟨h1, h2, h3⟩ := h e (by simp)
    have hrest : ∀ x ∈ rest, x.name ≠ none ∧ x.name ≠ some "" ∧
        ¬(x.id = some "0" ∧ x.name = some "All Files") := by
      intro x hx
      exact h x (List.mem_cons_of_mem e hx)
    cases hn : e.name with
    | none => exact absurd hn h1
    | some n =>
      have hn2 : n ≠ "" := by
        intro hc
        exact h2 (by rw [hn, hc])
      simp only [entryNames]
      rw [if_neg h3]
      simp only [hn]
      rw [if_neg hn2]
      rw [List.filterMap_cons, hn]
      rw [ih hrest]

theorem execRetryFrom_continue0 {α : Type} (b : Nat) (f : Nat → ReqOutcome α)
    (fuel : Nat) (delays : List Nat) (h : retryIter f 0 = none) :
    execRetryFrom b f (fuel + 1) 0 delays = execRetryFrom b f fuel 1 delays := by
  simp [execRetryFrom, h]

theorem execRetryFrom_continueS {α : Type} (b : Nat) (f : Nat → ReqOutcome α)
    (fuel k : Nat) (delays : List Nat) (h : retryIter f (k + 1) = none) :
    execRetryFrom b f (fuel + 1) (k + 1) delays =
      execRetryFrom b f fuel (k + 2) (delays ++ [b * 2 ^ k]) := by
  simp [execRetryFrom, h]

theorem execRetryFrom_stop0 {α : Type} (b : Nat) (f : Nat → ReqOutcome α)
    (fuel : Nat) (delays : List Nat) (x : Except BoxErr α) (h : retryIter f 0 = some x) :
    execRetryFrom b f (fuel + 1) 0 delays =
      (match x with | .ok r => (.ok (some r), delays) | .error e => (.error e, delays)) := by
  cases x <;> simp [execRetryFrom, h]

theorem execRetryFrom_stopS {α : Type} (b : Nat) (f : Nat → ReqOutcome α)
    (fuel k : Nat) (delays : List Nat) (x : Except BoxErr α) (h : retryIter f (k + 1) = some x) :
    execRetryFrom b f (fuel + 1) (k + 1) delays =
      (match x with
       | .ok r => (.ok (some r), delays ++ [b * 2 ^ k])
       | .error e => (.error e, delays ++ [b * 2 ^ k])) := by
  cases x <;> simp [execRetryFrom, h]

/-- C7: for every page request in either scan mode, if the response is
empty or carries no (or an empty) `entries` list, the folder walk returns
`(records=[], hasMore=false)` rather than failing the batch. -/
theorem c7_empty_or_malformed_page :
    ∀ (fid : String) (off mf : Nat) (tc : Option Nat),
    (scanFolderFull fid off mf (.ok none)).1 = .ok ([], false) ∧
    (scanFolderFull fid off mf (.ok (some ⟨none, tc⟩))).1 = .ok ([], false) ∧
    (scanFolderFull fid off mf (.ok (some ⟨some [], tc⟩))).1 = .ok ([], false) ∧
    (scanFolderInc fid off mf (.ok none)).1 = .ok ([], false) ∧
    (scanFolderInc fid off mf (.ok (some ⟨none, tc⟩))).1 = .ok ([], false) ∧
    (scanFolderInc fid off mf (.ok (some ⟨some [], tc⟩))).1 = .ok ([], false) := by
  intro fid off mf tc
  exact ⟨rfl, rfl, rfl, rfl, rfl, rfl⟩

/-- C8: `buildFolderPath` concatenates ancestor folder names with `/`
separators rooted at `/`; the synthetic top-level entry (id `"0"`, name
`"All Files"`) is elided when it is the first entry; empty or missing path
collections yield `"/"`; and the two concrete examples from the spec. -/
theorem c8_build_folder_path :
    buildFolderPath (some [⟨some "0", some "All Files"⟩, ⟨some "5", some "Reports"⟩]) = "/Reports" ∧
    buildFolderPath (some []) = "/" ∧
    buildFolderPath none = "/" ∧
    (∀ rest : List PathEntry,
      buildFolderPath (some (⟨some "0", some "All Files"⟩ :: rest)) =
        buildFolderPath (some rest)) ∧
    (∀ entries : List PathEntry, entries ≠ [] →
      (∀ e ∈ entries, e.name ≠ none ∧ e.name ≠ some "" ∧
          ¬(e.id = some "0" ∧ e.name = some "All Files")) →
      buildFolderPath (some entries) =
        "/" ++ joinWith "/" (entries.filterMap PathEntry.name)) := by
  refine ⟨by decide, by decide, by decide, ?_, ?_⟩
  · intro rest
    cases rest with
    | nil => decide
    | cons r rs => simp [buildFolderPath, entryNames]
  · intro entries hne h
    cases entries with
    | nil => exact absurd rfl hne
    | cons e rest =>
      obtain ⟨h1, _, _⟩ := h e (by simp)
      cases hn : e.name with
      | none => exact absurd hn h1
      | some n =>
        have hnames := entryNames_eq_filterMap (e :: rest) h
        simp only [buildFolderPath, List.isEmpty_cons, if_false, Bool.false_eq_true]
        rw [hnames]
        simp [List.filterMap_cons, hn]

/-- C8 witness: the general concatenation clause evaluated at a concrete
singleton path collection. -/
theorem c8_build_folder_path_witness :
    buildFolderPath (some [⟨some "5", some "Reports"⟩]) =
      "/" ++ joinWith "/" (([⟨some "5", some "Reports"⟩] : List PathEntry).filterMap PathEntry.name) :=
  c8_build_folder_path.2.2.2.2 [⟨some "5", some "Reports"⟩] (by decide) (by decide)

/-- C9: `_get_mime_type_from_name` maps every tabled extension (after
lowercasing) to its MIME type, an unknown extension to
`application/<ext>`, and a missing extension or empty filename to
`application/octet-stream`. -/
theorem c9_mime_type_from_name :
    (getMimeTypeFromName "report.PDF" = "application/pdf" ∧
     getMimeTypeFromName "a.pdf" = "application/pdf" ∧
     getMimeTypeFromName "a.doc" = "application/msword" ∧
     getMimeTypeFromName "a.docx" = "application/vnd.openxmlformats-officedocument.wordprocessingml.document" ∧
     getMimeTypeFromName "a.xls" = "application/vnd.ms-excel" ∧
     getMimeTypeFromName "a.xlsx" = "application/vnd.openxmlformats-officedocument.spreadsheetml.sheet" ∧
     getMimeTypeFromName "a.ppt" = "application/vnd.ms-powerpoint" ∧
     getMimeTypeFromName "a.pptx" = "application/vnd.openxmlformats-officedocument.presentationml.presentation" ∧
     getMimeTypeFromName "a.txt" = "text/plain" ∧
     getMimeTypeFromName "a.csv" = "text/csv" ∧
     getMimeTypeFromName "a.jpg" = "image/jpeg" ∧
     getMimeTypeFromName "a.jpeg" = "image/jpeg" ∧
     getMimeTypeFromName "a.png" = "image/png" ∧
     getMimeTypeFromName "a.gif" = "image/gif" ∧
     getMimeTypeFromName "a.html" = "text/html" ∧
     getMimeTypeFromName "a.htm" = "text/html" ∧
     getMimeTypeFromName "a.json" = "application/json" ∧
     getMimeTypeFromName "a.xml" = "application/xml" ∧
     getMimeTypeFromName "a.zip" = "application/zip" ∧
     getMimeTypeFromName "noext" = "application/octet-stream" ∧
     getMimeTypeFromName "" = "application/octet-stream" ∧
     getMimeTypeFromName "file.xyz" = "application/xyz") ∧
    (∀ fn : String, fn ≠ "" → ¬ (splitChar '.' fn.data).length > 1 →
      getMimeTypeFromName fn = "application/octet-stream") ∧
    (∀ fn : String, fn ≠ "" → (splitChar '.' fn.data).length > 1 →
      lookupExt extensionToMime (lowerString (String.mk ((splitChar '.' fn.data).getLastD []))) = none →
      getMimeTypeFromName fn =
        "application/" ++ lowerString (String.mk ((splitChar '.' fn.data).getLastD []))) := by
  refine ⟨by decide, ?_, ?_⟩
  · intro fn h1 h2
    simp only [getMimeTypeFromName]
    rw [if_neg h1, if_neg h2]
  · intro fn h1 h2 h3
    simp only [getMimeTypeFromName]
    rw [if_neg h1, if_pos h2, h3]
    rfl

/-- C9 witness: the two general clauses evaluated at concrete filenames. -/
theorem c9_mime_type_from_name_witness :
    getMimeTypeFromName "zz" = "application/octet-stream" ∧
    getMimeTypeFromName "b.qq" =
      "application/" ++ lowerString (String.mk ((splitChar '.' ("b.qq" : String).data).getLastD [])) :=
  ⟨c9_mime_type_from_name.2.1 "zz" (by decide) (by decide),
   c9_mime_type_from_name.2.2 "b.qq" (by decide) (by decide) (by decide)⟩

/-- C10: a full-mode response whose page fits the batch limit (so the
batch-size break cannot fire and the has-more comparison is reached) with
a non-empty `entries` list but no `total_count` makes that comparison hit
`None` and aborts the batch into an error result, while the incremental
mode handles the same response as if `total_count` were the number of
returned items. -/
theorem c10_missing_total_count :
    (∀ (fid : String) (off mf : Nat) (item : BoxItem) (rest : List BoxItem),
      (item :: rest).length ≤ mf →
      (scanFolderFull fid off mf (.ok (some ⟨some (item :: rest), none⟩))).1 =
        .error .typeError) ∧
    (∀ (fid : String) (cursor : Option Nat) (item : BoxItem) (rest : List BoxItem)
        (s n a b : Nat),
      (item :: rest).length ≤ MAX_BATCH_SIZE →
      (fullScan fid cursor (.ok (some ⟨some (item :: rest), none⟩)) s n a b).result.error =
        some "Error in full scan of Box") ∧
    (∀ (fid : String) (off mf : Nat) (items : List BoxItem),
      scanFolderInc fid off mf (.ok (some ⟨some items, none⟩)) =
        scanFolderInc fid off mf (.ok (some ⟨some items, some items.length⟩))) := by
  refine ⟨?_, ?_, ?_⟩
  · intro fid off mf item rest hle
    have hbr : (processFull fid mf (item :: rest) 0).2 = false :=
      processFull_break_false fid mf (item :: rest) 0 (by omega)
    simp [scanFolderFull, hbr]
  · intro fid cursor item rest s n a b hle
    have hbr : (processFull fid MAX_BATCH_SIZE (item :: rest) 0).2 = false :=
      processFull_break_false fid MAX_BATCH_SIZE (item :: rest) 0 (by omega)
    simp [fullScan, scanFolderFull, hbr, createErrorResult]
  · intro fid off mf items
    cases items with
    | nil => rfl
    | cons item rest => rfl

/-- C10 witness: both full-mode clauses evaluated on a concrete one-item
page without `total_count`. -/
theorem c10_missing_total_count_witness :
    (scanFolderFull "0" 0 300 (.ok (some ⟨some [itemGood], none⟩))).1 = .error .typeError ∧
    (fullScan "0" (some 0) (.ok (some ⟨some [itemGood], none⟩)) 1 2 0 0).result.error =
      some "Error in full scan of Box" :=
  ⟨c10_missing_total_count.1 "0" 0 300 itemGood [] (by decide),
   c10_missing_total_count.2.1 "0" (some 0) itemGood [] 1 2 0 0 (by decide)⟩

/-- C4: a request failing with 429 twice and succeeding on the third
attempt returns the response after exactly two backoff delays of
`baseDelay * 2 ^ (attempt - 1)`; a request that keeps failing with a 429
or 5xx status propagates the failure after MAX_RETRIES (3) additional
attempts, i.e. three backoff delays. -/
theorem c4_retry_backoff :
    ∀ (α : Type) (b : Nat) (r : α) (f g : Nat → ReqOutcome α) (s : Nat),
    (f 0 = .apiError 429 → f 1 = .apiError 429 → f 2 = .success r →
      executeWithRetry b f = (.ok (some r), [b * 2 ^ 0, b * 2 ^ 1])) ∧
    (isTransientStatus s = true → (∀ i, g i = .apiError s) →
      executeWithRetry b g = (.error (.api s), [b * 2 ^ 0, b * 2 ^ 1, b * 2 ^ 2])) := by
  intro α b r f g s
  constructor
  · intro h0 h1 h2
    have i0 : retryIter f 0 = none := by
      simp [retryIter, h0, isTransientStatus, MAX_RETRIES]
    have i1 : retryIter f 1 = none := by
      simp [retryIter, h1, isTransientStatus, MAX_RETRIES]
    have i2 : retryIter f 2 = some (.ok r) := by
      simp [retryIter, h2]
    show execRetryFrom b f (3 + 1) 0 [] = _
    rw [execRetryFrom_continue0 b f 3 [] i0]
    show execRetryFrom b f (2 + 1) (0 + 1) [] = _
    rw [execRetryFrom_continueS b f 2 0 [] i1]
    show execRetryFrom b f (1 + 1) (1 + 1) ([] ++ [b * 2 ^ 0]) = _
    rw [execRetryFrom_stopS b f 1 1 ([] ++ [b * 2 ^ 0]) (.ok r) i2]
    simp
  · intro ht hg
    have i0 : retryIter g 0 = none := by
      simp [retryIter, hg 0, ht, MAX_RETRIES]
    have i1 : retryIter g 1 = none := by
      simp [retryIter, hg 1, ht, MAX_RETRIES]
    have i2 : retryIter g 2 = none := by
      simp [retryIter, hg 2, ht, MAX_RETRIES]
    have i3 : retryIter g 3 = some (.error (.api s)) := by
      simp [retryIter, hg 3, ht, MAX_RETRIES]
    show execRetryFrom b g (3 + 1) 0 [] = _
    rw [execRetryFrom_continue0 b g 3 [] i0]
    show execRetryFrom b g (2 + 1) (0 + 1) [] = _
    rw [execRetryFrom_continueS b g 2 0 [] i1]
    show execRetryFrom b g (1 + 1) (1 + 1) ([] ++ [b * 2 ^ 0]) = _
    rw [execRetryFrom_continueS b g 1 1 ([] ++ [b * 2 ^ 0]) i2]
    show execRetryFrom b g (0 + 1) (2 + 1) ([] ++ [b * 2 ^ 0] ++ [b * 2 ^ 1]) = _
    rw [execRetryFrom_stopS b g 0 2 ([] ++ [b * 2 ^ 0] ++ [b * 2 ^ 1]) (.error (.api s)) i3]
    simp

/-- C4 witness: the two clauses evaluated on concrete request functions
with base delay 1. -/
theorem c4_retry_backoff_witness :
    executeWithRetry 1 reqTwice429 = (.ok (some 7), [1 * 2 ^ 0, 1 * 2 ^ 1]) ∧
    executeWithRetry 1 reqAlways429 =
      (.error (.api 429), [1 * 2 ^ 0, 1 * 2 ^ 1, 1 * 2 ^ 2]) :=
  ⟨(c4_retry_backoff Nat 1 7 reqTwice429 reqAlways429 429).1 (by decide) (by decide) (by decide),
   (c4_retry_backoff Nat 1 7 reqTwice429 reqAlways429 429).2 (by decide) (fun i => rfl)⟩

/-- C5 counterexample: an unexpected (non-API) error is NOT fatal on its
first occurrence: the executor performs three further backoff-delayed
attempts before propagating it, so the claim that it raises without
invoking the request function again is false. -/
theorem c5_counterexample :
    executeWithRetry 1 reqUnexpected =
      (.error .other, [1 * 2 ^ 0, 1 * 2 ^ 1, 1 * 2 ^ 2]) ∧
    [1 * 2 ^ 0, 1 * 2 ^ 1, 1 * 2 ^ 2] ≠ ([] : List Nat) := by
  decide

/-- C5 amended: a `BoxAPIException` whose status is neither 429 nor 5xx is
fatal on the first occurrence with no retry and no delay (this includes
404 and 403); but a non-API provider error or an unexpected error is
retried like a transient one and propagates only after MAX_RETRIES
additional attempts. -/
theorem c5_amended_fatal_classes :
    (∀ (α : Type) (b : Nat) (f : Nat → ReqOutcome α) (s : Nat),
      f 0 = .apiError s → isTransientStatus s = false →
      executeWithRetry b f = (.error (.api s), [])) ∧
    (∀ (α : Type) (b : Nat) (f : Nat → ReqOutcome α),
      (∀ i, f i = .boxError) →
      executeWithRetry b f = (.error .box, [b * 2 ^ 0, b * 2 ^ 1, b * 2 ^ 2])) ∧
    (∀ (α : Type) (b : Nat) (f : Nat → ReqOutcome α),
      (∀ i, f i = .otherError) →
      executeWithRetry b f = (.error .other, [b * 2 ^ 0, b * 2 ^ 1, b * 2 ^ 2])) := by
  refine ⟨?_, ?_, ?_⟩
  · intro α b f s h0 ht
    have i0 : retryIter f 0 = some (.error (.api s)) := by
      simp only [retryIter, h0, ht, Bool.false_eq_true, if_false]
      split
      · rfl
      · split <;> rfl
    show execRetryFrom b f (3 + 1) 0 [] = _
    rw [execRetryFrom_stop0 b f 3 [] (.error (.api s)) i0]
  · intro α b f hf
    have i0 : retryIter f 0 = none := by simp [retryIter, hf 0, MAX_RETRIES]
    have i1 : retryIter f 1 = none := by simp [retryIter, hf 1, MAX_RETRIES]
    have i2 : retryIter f 2 = none := by simp [retryIter, hf 2, MAX_RETRIES]
    have i3 : retryIter f 3 = some (.error .box) := by
      simp [retryIter, hf 3, MAX_RETRIES]
    show execRetryFrom b f (3 + 1) 0 [] = _
    rw [execRetryFrom_continue0 b f 3 [] i0]
    show execRetryFrom b f (2 + 1) (0 + 1) [] = _
    rw [execRetryFrom_continueS b f 2 0 [] i1]
    show execRetryFrom b f (1 + 1) (1 + 1) ([] ++ [b * 2 ^ 0]) = _
    rw [execRetryFrom_continueS b f 1 1 ([] ++ [b * 2 ^ 0]) i2]
    show execRetryFrom b f (0 + 1) (2 + 1) ([] ++ [b * 2 ^ 0] ++ [b * 2 ^ 1]) = _
    rw [execRetryFrom_stopS b f 0 2 ([] ++ [b * 2 ^ 0] ++ [b * 2 ^ 1]) (.error .box) i3]
    simp
  · intro α b f hf
    have i0 : retryIter f 0 = none := by simp [retryIter, hf 0, MAX_RETRIES]
    have i1 : retryIter f 1 = none := by simp [retryIter, hf 1, MAX_RETRIES]
    have i2 : retryIter f 2 = none := by simp [retryIter, hf 2, MAX_RETRIES]
    have i3 : retryIter f 3 = some (.error .other) := by
      simp [retryIter, hf 3, MAX_RETRIES]
    show execRetryFrom b f (3 + 1) 0 [] = _
    rw [execRetryFrom_continue0 b f 3 [] i0]
    show execRetryFrom b f (2 + 1) (0 + 1) [] = _
    rw [execRetryFrom_continueS b f 2 0 [] i1]
    show execRetryFrom b f (1 + 1) (1 + 1) ([] ++ [b * 2 ^ 0]) = _
    rw [execRetryFrom_continueS b f 1 1 ([] ++ [b * 2 ^ 0]) i2]
    show execRetryFrom b f (0 + 1) (2 + 1) ([] ++ [b * 2 ^ 0] ++ [b * 2 ^ 1]) = _
    rw [execRetryFrom_stopS b f 0 2 ([] ++ [b * 2 ^ 0] ++ [b * 2 ^ 1]) (.error .other) i3]
    simp

/-- C5 amended witness: the three clauses evaluated on concrete request
functions. -/
theorem c5_amended_fatal_classes_witness :
    executeWithRetry 1 reqTeapot = (.error (.api 418), []) ∧
    executeWithRetry 1 reqBoxFail = (.error .box, [1 * 2 ^ 0, 1 * 2 ^ 1, 1 * 2 ^ 2]) ∧
    executeWithRetry 1 reqUnexpected = (.error .other, [1 * 2 ^ 0, 1 * 2 ^ 1, 1 * 2 ^ 2]) :=
  ⟨c5_amended_fatal_classes.1 Nat 1 reqTeapot 418 (by decide) (by decide),
   c5_amended_fatal_classes.2.1 Nat 1 reqBoxFail (fun i => rfl),
   c5_amended_fatal_classes.2.2 Nat 1 reqUnexpected (fun i => rfl)⟩

/-- C1 counterexample: a full-mode page at offset 0 with two entries, one
of which fails per-item normalization, and total_count 2.  Only one record
is delivered and `0 + 1 < 2` holds, yet the walk reports `hasMore = false`
because the full-mode comparison uses the raw page size, not the number of
delivered records. -/
theorem c1_counterexample :
    (scanFolderFull "0" 0 300 (.ok (some ⟨some [itemGood, itemBad], some 2⟩))).1 =
      .ok ([fmGood], false) ∧
    0 + ([fmGood] : List FileMetadata).length < 2 := by
  decide

/-- C1 amended: in incremental mode `hasMore` is true iff
`offset + deliveredRecords < totalCount` (with `totalCount` defaulting to
the page size); in full mode the comparison instead uses the raw number of
page entries, `offset + pageEntries < totalCount` (when the batch-size
break cannot fire); in both modes a batch whose walk reports no more
results resets the cursor offset to 0. -/
theorem c1_amended_has_more :
    (∀ (fid : String) (off mf : Nat) (tc : Option Nat) (item : BoxItem)
        (rest : List BoxItem) (files : List FileMetadata) (hm : Bool) (c e : Nat),
      scanFolderInc fid off mf (.ok (some ⟨some (item :: rest), tc⟩)) =
          (.ok (files, hm), c, e) →
      hm = decide (off + files.length < tc.getD (item :: rest).length)) ∧
    (∀ (fid : String) (off mf tc : Nat) (item : BoxItem) (rest : List BoxItem)
        (files : List FileMetadata) (hm : Bool) (c e : Nat),
      (item :: rest).length ≤ mf →
      scanFolderFull fid off mf (.ok (some ⟨some (item :: rest), some tc⟩)) =
          (.ok (files, hm), c, e) →
      hm = decide (off + (item :: rest).length < tc)) ∧
    (∀ (fid : String) (cursor : Option Nat) (walk : Except Unit (Option SearchResponse))
        (s n a b : Nat),
      ((fullScan fid cursor walk s n a b).result.error = none →
        (fullScan fid cursor walk s n a b).result.isCompleted = true →
        (fullScan fid cursor walk s n a b).savedOffsets = [0]) ∧
      ((incrementalScan fid cursor walk s n a b).result.error = none →
        (incrementalScan fid cursor walk s n a b).result.isCompleted = true →
        (incrementalScan fid cursor walk s n a b).savedOffsets = [0])) := by
  refine ⟨?_, ?_, ?_⟩
  · intro fid off mf tc item rest files hm c e hEq
    simp only [scanFolderInc, Prod.mk.injEq, Except.ok.injEq] at hEq
    obtain ⟨⟨hf, hh⟩, -, -⟩ := hEq
    rw [← hh, ← hf]
  · intro fid off mf tc item rest files hm c e hle hEq
    have hbr : (processFull fid mf (item :: rest) 0).2 = false :=
      processFull_break_false fid mf (item :: rest) 0 (by omega)
    simp only [scanFolderFull, hbr, Bool.false_eq_true, if_false,
      Prod.mk.injEq, Except.ok.injEq] at hEq
    obtain ⟨⟨hf, hh⟩, -, -⟩ := hEq
    rw [← hh]
  · intro fid cursor walk s n a b
    constructor
    · rcases h : (scanFolderFull fid (cursor.getD 0) MAX_BATCH_SIZE walk).1 with er | ⟨files, hm⟩
      · simp [fullScan, h, createErrorResult]
      · cases hm <;> simp [fullScan, h]
    · rcases h : (scanFolderInc fid (cursor.getD 0) MAX_BATCH_SIZE walk).1 with er | ⟨files, hm⟩
      · simp [incrementalScan, h, createErrorResult]
      · cases hm <;> simp [incrementalScan, h]

/-- C1 amended witness: the three clauses evaluated at concrete pages and
batches. -/
theorem c1_amended_has_more_witness :
    (true = decide (0 + ([fmGood] : List FileMetadata).length <
      (some 5 : Option Nat).getD (itemGood :: []).length)) ∧
    (true = decide (0 + (itemGood :: []).length < 5)) ∧
    (fullScan "0" (some 5) (.ok none) 1 2 0 0).savedOffsets = [0] :=
  ⟨c1_amended_has_more.1 "0" 0 300 (some 5) itemGood [] [fmGood] true 1 0 (by decide),
   c1_amended_has_more.2.1 "0" 0 300 5 itemGood [] [fmGood] true 1 0 (by decide) (by decide),
   (c1_amended_has_more.2.2 "0" (some 5) (.ok none) 1 2 0 0).1 (by decide) (by decide)⟩

/-- C2: after every successfully completed batch, in both modes, the
persisted cursor offset is `offset + files` when the walk reported more
results (`isCompleted = false`) and 0 (sweep reset) when it did not. -/
theorem c2_cursor_advance :
    ∀ (fid : String) (cursor : Option Nat) (walk : Except Unit (Option SearchResponse))
      (s n a b : Nat),
    ((fullScan fid cursor walk s n a b).result.error = none →
      (fullScan fid cursor walk s n a b).savedOffsets =
        [if (fullScan fid cursor walk s n a b).result.isCompleted then 0
         else cursor.getD 0 + (fullScan fid cursor walk s n a b).result.files.length]) ∧
    ((incrementalScan fid cursor walk s n a b).result.error = none →
      (incrementalScan fid cursor walk s n a b).savedOffsets =
        [if (incrementalScan fid cursor walk s n a b).result.isCompleted then 0
         else cursor.getD 0 + (incrementalScan fid cursor walk s n a b).result.files.length]) := by
  intro fid cursor walk s n a b
  constructor
  · rcases h : (scanFolderFull fid (cursor.getD 0) MAX_BATCH_SIZE walk).1 with er | ⟨files, hm⟩
    · simp [fullScan, h, createErrorResult]
    · cases hm <;> simp [fullScan, h]
  · rcases h : (scanFolderInc fid (cursor.getD 0) MAX_BATCH_SIZE walk).1 with er | ⟨files, hm⟩
    · simp [incrementalScan, h, createErrorResult]
    · cases hm <;> simp [incrementalScan, h]

/-- C2 witness: both clauses evaluated on a concrete completed batch. -/
theorem c2_cursor_advance_witness :
    (fullScan "0" (some 5) (.ok none) 1 2 0 0).savedOffsets =
      [if (fullScan "0" (some 5) (.ok none) 1 2 0 0).result.isCompleted then 0
       else (some 5 : Option Nat).getD 0 +
         (fullScan "0" (some 5) (.ok none) 1 2 0 0).result.files.length] ∧
    (incrementalScan "0" (some 5) (.ok none) 1 2 0 0).savedOffsets =
      [if (incrementalScan "0" (some 5) (.ok none) 1 2 0 0).result.isCompleted then 0
       else (some 5 : Option Nat).getD 0 +
         (incrementalScan "0" (some 5) (.ok none) 1 2 0 0).result.files.length] :=
  ⟨(c2_cursor_advance "0" (some 5) (.ok none) 1 2 0 0).1 (by decide),
   (c2_cursor_advance "0" (some 5) (.ok none) 1 2 0 0).2 (by decide)⟩

/-- C3: when the walk raises a fatal failure during a batch after
authentication succeeded, the scan entry point returns (it does not
throw) a ScanResult with a populated error string, `isCompleted = false`
and no records, and the cursor is persisted on the way out holding the
restored offset, in both scan modes. -/
theorem c3_fatal_failure_resumes :
    ∀ (scanType fid : String) (creds : Option String) (cursor : Option Nat) (s n : Nat),
    (scan (some (true, creds)) scanType fid cursor (.error ()) s n).result.error.isSome = true ∧
    (scan (some (true, creds)) scanType fid cursor (.error ()) s n).result.isCompleted = false ∧
    (scan (some (true, creds)) scanType fid cursor (.error ()) s n).result.files = [] ∧
    (scan (some (true, creds)) scanType fid cursor (.error ()) s n).savedOffsets =
      [cursor.getD 0] := by
  intro scanType fid creds cursor s n
  by_cases hst : scanType = "incremental" <;> cases creds <;>
    simp [scan, hst, fullScan, incrementalScan, scanFolderFull, scanFolderInc,
      createErrorResult]

/-- C6 counterexample: a successful batch with more results pending has
`isCompleted = false` but its stats carry `scanCompletedAt = now` rather
than `None`, contradicting the claim that `scanCompletedAt` is null
whenever the sweep has not finished. -/
theorem c6_counterexample :
    (fullScan "0" (some 0) (.ok (some ⟨some [itemGood], some 5⟩)) 10 20 0 0).result.isCompleted
      = false ∧
    (fullScan "0" (some 0) (.ok (some ⟨some [itemGood], some 5⟩)) 10 20 0 0).result.stats.scanCompletedAt
      = some 20 ∧
    some 20 ≠ (none : Option Nat) := by
  decide

/-- C6 amended: `scanCompletedAt` is `None` exactly on error results;
every successful batch, completed or not, sets it to the batch end time. -/
theorem c6_amended_completed_at :
    ∀ (fid : String) (cursor : Option Nat) (walk : Except Unit (Option SearchResponse))
      (s n a b : Nat),
    (fullScan fid cursor walk s n a b).result.stats.scanCompletedAt =
      (if (fullScan fid cursor walk s n a b).result.error.isSome then none else some n) ∧
    (incrementalScan fid cursor walk s n a b).result.stats.scanCompletedAt =
      (if (incrementalScan fid cursor walk s n a b).result.error.isSome then none
       else some n) := by
  intro fid cursor walk s n a b
  constructor
  · rcases h : (scanFolderFull fid (cursor.getD 0) MAX_BATCH_SIZE walk).1 with er | ⟨files, hm⟩ <;>
      simp [fullScan, h, createErrorResult]
  · rcases h : (scanFolderInc fid (cursor.getD 0) MAX_BATCH_SIZE walk).1 with er | ⟨files, hm⟩ <;>
      simp [incrementalScan, h, createErrorResult]

end BoxScan
